import Mathlib

/-!
Shallow embedding of the transaction normalization and provider-fallback
layer of `src/webapp/src/lib/transactions.ts`.

Conventions of the embedding:
* JavaScript `BigInt` values are `Nat` (all inputs in scope are non-negative).
* JavaScript strings are `String`; a possibly-`undefined` field of a raw
  provider record is `Option String` (`none` = the field is absent).
* The JS truthiness idiom `a || b` on strings (where `""` and `undefined`
  are falsy) is `jsOr`; on numbers (where `0` is falsy) it is `jsOrNat`.
* Asynchronous `fetch` calls are embedded as environments: for each provider
  an oracle value (or, for providers with an endpoint list, a function from
  the endpoint index to an outcome) describes what each network attempt
  would return.  A fetcher then becomes a pure function from its environment
  to `Except String TransactionResponse`: `.error msg` models a rejected
  promise carrying an `Error` with message `msg`.
-/

/-- Truthiness of an optional JS string: `undefined` and `""` are falsy. -/
abbrev jsTruthy (o : Option String) : Prop := o.getD "" ≠ ""

/-- Models the JS idiom `a || b` for a possibly-undefined string `a`. -/
def jsOr (a : Option String) (b : String) : String :=
  match a with
  | some s => if s = "" then b else s
  | none => b

/-- Models the JS idiom `a || b` for numbers, where `0` (and `undefined`,
modelled as `0`) is falsy. -/
def jsOrNat (a b : Nat) : Nat :=
  if a = 0 then b else a

/-- Decimal digit character for `n < 10`. -/
def digitChar (n : Nat) : Char := Char.ofNat (48 + n)

/-- Models `BigInt(s)` / `parseInt(s)` on a base-10 digit string.
On `""` it returns `0`, as `BigInt("")` does. -/
def strToNat (s : String) : Nat :=
  s.data.foldl (fun acc c => 10 * acc + (c.toNat - 48)) 0

/-- Fuel-driven big-endian decimal digit list of `n` (empty for `0`);
any fuel of at least the digit count of `n` gives the digits of `n`. -/
def natToStrAux : Nat → Nat → List Char
  | 0, _ => []
  | fuel + 1, n => if n = 0 then [] else natToStrAux fuel (n / 10) ++ [digitChar (n % 10)]

/-- Models `BigInt.prototype.toString` / `String(n)`: the base-10
representation of a natural number. -/
def natToStr (n : Nat) : String :=
  if n = 0 then "0" else String.mk (natToStrAux (n + 1) n)

/-- Models `s.padStart(n, '0')`. -/
def padStartZeros (s : String) (n : Nat) : String :=
  String.mk (List.replicate (n - s.length) '0' ++ s.data)

/-- Models `s.replace(/0+$/, '')`: drop the trailing run of `'0'`. -/
def stripTrailingZeros (s : String) : String :=
  String.mk ((s.data.reverse.dropWhile (fun c => c == '0')).reverse)

/-- Models `s.includes(sub)` for a non-empty `sub`. -/
def strIncludes (s sub : String) : Bool :=
  1 < (s.splitOn sub).length

/-- ASCII lower-casing of one character. -/
def charToLower (c : Char) : Char :=
  if 65 ≤ c.toNat ∧ c.toNat ≤ 90 then Char.ofNat (c.toNat + 32) else c

/-- Models `s.toLowerCase()` (ASCII, which is all the code compares). -/
def strToLower (s : String) : String := String.mk (s.data.map charToLower)

/-- Fuel-driven bit length of `n` (`0` for `0`); fuel `n` suffices. -/
def bitLen : Nat → Nat → Nat
  | 0, _ => 0
  | fuel + 1, n => if n = 0 then 0 else bitLen fuel (n / 2) + 1

/-- Models the JS expression `BigInt(10 ** decimals)` from `formatValue`:
`10 ** decimals` is binary64 floating-point exponentiation, so its value is
`10 ^ d` rounded to 53 significand bits (round-to-nearest, ties-to-even);
`BigInt` then converts that double exactly.  For `d ≤ 22` the result is
exact because `10 ^ d = 2 ^ d * 5 ^ d` with `5 ^ d < 2 ^ 53`; from `d = 23`
on it differs from `10 ^ d` (no binary64 value can equal `10 ^ 23`).
The model covers `d < 309`; beyond that the double overflows to `Infinity`
and the source throws. -/
def jsPow10 (d : Nat) : Nat :=
  let n := 10 ^ d
  let k := bitLen n n
  if k ≤ 53 then n
  else
    let shift := k - 53
    let q := n / 2 ^ shift
    let r := n % 2 ^ shift
    let half := 2 ^ (shift - 1)
    (if half < r ∨ (r = half ∧ q % 2 = 1) then q + 1 else q) * 2 ^ shift

/-- Embedding of `formatValue(value, decimals)` (transactions.ts lines 6-14):
guard for `""`/`"0"`, split `BigInt(value)` by the divisor
`BigInt(10 ** decimals)`, left-pad the fractional part with zeros to
`decimals` digits, keep the first 6, strip trailing zeros, and join. -/
def formatValue (value : String) (decimals : Nat) : String :=
  if value = "" ∨ value = "0" then "0"
  else
    let num := strToNat value
    let divisor := jsPow10 decimals
    let intPart := num / divisor
    let fracPart := num % divisor
    let fracStr := stripTrailingZeros (String.mk ((padStartZeros (natToStr fracPart) decimals).data.take 6))
    if fracStr = "" then natToStr intPart else natToStr intPart ++ "." ++ fracStr

/-- Canonical transaction `type` enum (spec section 3; `types.ts` is outside
`src/`, but every value constructed in `transactions.ts` is listed here). -/
inductive TxType where
  | transfer | contract | internal | token | nft | stake | unstake | reward | swap | other
  deriving DecidableEq, Repr

/-- Canonical transaction `status` enum. -/
inductive TxStatus where
  | success | failed | pending
  deriving DecidableEq, Repr

/-- The `apiType` familes dispatched on in `fetchTransactions`. -/
inductive ApiType where
  | etherscan | subscan | solscan | mintscan | custom
  deriving DecidableEq, Repr

/-- Chain registry entry (spec section 3; `chains.ts` is an external
read-only collaborator, so only the fields this layer reads appear). -/
structure ChainConfig where
  id : String
  name : String
  symbol : String
  decimals : Nat
  apiEndpoint : String
  apiType : ApiType
  fallbackEndpoints : List String
  explorerUrl : String
  deriving DecidableEq, Repr

/-- The ordered endpoint list `[chain.apiEndpoint, ...(chain.fallbackEndpoints || [])]`. -/
def ChainConfig.allEndpoints (c : ChainConfig) : List String :=
  c.apiEndpoint :: c.fallbackEndpoints

/-- Canonical Transaction record (spec section 3).  The JS field `from` is a
Lean keyword and is named `fromAddr` here.  The optional token fields
(`tokenSymbol`, `tokenAmount`, `tokenDecimals`) are never produced by any
code in `transactions.ts` and are omitted. -/
structure Transaction where
  hash : String
  blockNumber : String
  timestamp : String
  fromAddr : String
  toAddr : String
  value : String
  valueFormatted : String
  fee : String
  feeFormatted : String
  status : TxStatus
  type : TxType
  chainId : String
  chainName : String
  symbol : String
  method : Option String
  gasUsed : Option String
  gasPrice : Option String
  nonce : Option String
  input : Option String
  explorerUrl : String
  deriving DecidableEq, Repr

/-- Paginated response envelope. -/
structure TransactionResponse where
  transactions : List Transaction
  totalCount : Nat
  page : Nat
  limit : Nat
  hasMore : Bool
  deriving DecidableEq, Repr

/-- Raw Etherscan-style record: the fields `parseEtherscanTransaction` reads
from its `Record<string, string>` argument. -/
structure EtherscanRaw where
  timeStamp : Option String := none
  timestamp : Option String := none
  value : Option String := none
  gasUsed : Option String := none
  gas : Option String := none
  gasPrice : Option String := none
  input : Option String := none
  data : Option String := none
  contractAddress : Option String := none
  isError : Option String := none
  txreceipt_status : Option String := none
  confirmations : Option String := none
  hash : Option String := none
  txhash : Option String := none
  blockNumber : Option String := none
  block : Option String := none
  fromAddr : Option String := none
  toAddr : Option String := none
  functionName : Option String := none
  nonce : Option String := none
  deriving DecidableEq, Repr

/-- Embedding of `parseEtherscanTransaction` (transactions.ts lines 17-72).
The source first sets `type = 'contract'` and then overwrites it on a
selector match; the nested conditional below is observationally the same
(the `0x095ea7b3` approve branch also leaves `contract`). -/
def parseEtherscanTransaction (tx : EtherscanRaw) (chain : ChainConfig) : Transaction :=
  let timestamp := jsOr tx.timeStamp (jsOr tx.timestamp "0")
  let value := jsOr tx.value "0"
  let gasUsed := jsOr tx.gasUsed (jsOr tx.gas "0")
  let gasPrice := jsOr tx.gasPrice "0"
  let fee := natToStr (strToNat gasUsed * strToNat gasPrice)
  let input := jsOr tx.input (jsOr tx.data "")
  let type :=
    if jsTruthy tx.contractAddress ∨ (input ≠ "" ∧ input ≠ "0x" ∧ 10 < input.length) then
      let methodId := strToLower (input.take 10)
      if methodId = "0xa9059cbb" ∨ methodId = "0x23b872dd" then TxType.token
      else if methodId = "0x095ea7b3" then TxType.contract
      else TxType.contract
    else TxType.transfer
  let status :=
    if tx.isError = some "1" ∨ tx.txreceipt_status = some "0" then TxStatus.failed
    else if tx.confirmations = some "0" then TxStatus.pending
    else TxStatus.success
  { hash := jsOr tx.hash (jsOr tx.txhash "")
    blockNumber := jsOr tx.blockNumber (jsOr tx.block "")
    timestamp := timestamp
    fromAddr := jsOr tx.fromAddr ""
    toAddr := jsOr tx.toAddr (jsOr tx.contractAddress "")
    value := value
    valueFormatted := formatValue value chain.decimals
    fee := fee
    feeFormatted := formatValue fee chain.decimals
    status := status
    type := type
    chainId := chain.id
    chainName := chain.name
    symbol := chain.symbol
    method :=
      match tx.functionName with
      | none => none
      | some s => if (s.splitOn "(").headD "" = "" then none else some ((s.splitOn "(").headD "")
    gasUsed := some gasUsed
    gasPrice := some gasPrice
    nonce := tx.nonce
    input := some input
    explorerUrl := chain.explorerUrl ++ "/tx/" ++
      (if tx.hash.getD "" ≠ "" then tx.hash.getD "" else tx.txhash.getD "undefined") }

/-- Raw Subscan record: the fields `parseSubscanTransaction` reads.  The
source receives `Record<string, unknown>` and renders most fields through
`String(x || y || 0)`; numeric provider values are modelled by their decimal
string rendering.  The boolean `success` flag keeps its type. -/
structure SubscanRaw where
  block_timestamp : Option String := none
  timestamp : Option String := none
  amount : Option String := none
  value : Option String := none
  fee : Option String := none
  call_module : Option String := none
  module : Option String := none
  call_module_function : Option String := none
  call : Option String := none
  success : Option Bool := none
  extrinsic_hash : Option String := none
  hash : Option String := none
  block_num : Option String := none
  block : Option String := none
  account_id : Option String := none
  fromAddr : Option String := none
  toAddr : Option String := none
  destination : Option String := none
  deriving DecidableEq, Repr

/-- Embedding of `parseSubscanTransaction` (transactions.ts lines 75-115). -/
def parseSubscanTransaction (tx : SubscanRaw) (chain : ChainConfig) : Transaction :=
  let timestamp := jsOr tx.block_timestamp (jsOr tx.timestamp "0")
  let value := jsOr tx.amount (jsOr tx.value "0")
  let fee := jsOr tx.fee "0"
  let callModule := strToLower (jsOr tx.call_module (jsOr tx.module ""))
  let callFunction := strToLower (jsOr tx.call_module_function (jsOr tx.call ""))
  let type :=
    if callModule = "staking" ∨ strIncludes callFunction "stake" then TxType.stake
    else if strIncludes callFunction "unstake" ∨ strIncludes callFunction "unbond" then TxType.unstake
    else if callModule = "balances" then TxType.transfer
    else TxType.transfer
  let status := if tx.success = some false then TxStatus.failed else TxStatus.success
  { hash := jsOr tx.extrinsic_hash (jsOr tx.hash "")
    blockNumber := jsOr tx.block_num (jsOr tx.block "")
    timestamp := timestamp
    fromAddr := jsOr tx.account_id (jsOr tx.fromAddr "")
    toAddr := jsOr tx.toAddr (jsOr tx.destination "")
    value := value
    valueFormatted := formatValue value chain.decimals
    fee := fee
    feeFormatted := formatValue fee chain.decimals
    status := status
    type := type
    chainId := chain.id
    chainName := chain.name
    symbol := chain.symbol
    method := if callFunction = "" then none else some callFunction
    gasUsed := none
    gasPrice := none
    nonce := none
    input := none
    explorerUrl := chain.explorerUrl ++ "/extrinsic/" ++
      (if tx.extrinsic_hash.getD "" ≠ "" then tx.extrinsic_hash.getD "" else tx.hash.getD "undefined") }

/-- Raw Solscan record: the fields `parseSolscanTransaction` reads.  The
provider `type` string is kept as a string, as in the source. -/
structure SolscanRaw where
  blockTime : Option String := none
  timestamp : Option String := none
  lamport : Option String := none
  amount : Option String := none
  fee : Option String := none
  type : Option String := none
  status : Option String := none
  txHash : Option String := none
  signature : Option String := none
  slot : Option String := none
  block : Option String := none
  signer : Option String := none
  fromAddr : Option String := none
  toAddr : Option String := none
  destination : Option String := none
  deriving DecidableEq, Repr

/-- Embedding of `parseSolscanTransaction` (transactions.ts lines 118-151). -/
def parseSolscanTransaction (tx : SolscanRaw) (chain : ChainConfig) : Transaction :=
  let timestamp := jsOr tx.blockTime (jsOr tx.timestamp "0")
  let value := jsOr tx.lamport (jsOr tx.amount "0")
  let fee := jsOr tx.fee "0"
  let type :=
    if tx.type = some "stake" then TxType.stake
    else if tx.type = some "unstake" then TxType.unstake
    else if tx.type = some "swap" then TxType.swap
    else if tx.type = some "nft" then TxType.nft
    else TxType.transfer
  let status := if tx.status = some "fail" then TxStatus.failed else TxStatus.success
  { hash := jsOr tx.txHash (jsOr tx.signature "")
    blockNumber := jsOr tx.slot (jsOr tx.block "")
    timestamp := timestamp
    fromAddr := jsOr tx.signer (jsOr tx.fromAddr "")
    toAddr := jsOr tx.toAddr (jsOr tx.destination "")
    value := value
    valueFormatted := formatValue value chain.decimals
    fee := fee
    feeFormatted := formatValue fee chain.decimals
    status := status
    type := type
    chainId := chain.id
    chainName := chain.name
    symbol := chain.symbol
    method := none
    gasUsed := none
    gasPrice := none
    nonce := none
    input := none
    explorerUrl := chain.explorerUrl ++ "/tx/" ++
      (if tx.txHash.getD "" ≠ "" then tx.txHash.getD "" else tx.signature.getD "undefined") }

/-- One entry of a Cosmos message `amount` array. -/
structure CosmosCoin where
  amount : String
  deriving DecidableEq, Repr

/-- First-message fields of a Cosmos tx body that `parseCosmosTransaction`
reads (`firstMsg`). -/
structure CosmosMsg where
  atType : Option String := none
  amount : Option (List CosmosCoin) := none
  from_address : Option String := none
  delegator_address : Option String := none
  to_address : Option String := none
  validator_address : Option String := none
  deriving DecidableEq, Repr

/-- Raw Cosmos tx-response record: the fields `parseCosmosTransaction`
reads.  The source unwraps `tx.tx || tx` then `body.messages || []`; here
`messages` holds the resulting message list directly (the wrapper layers
only locate it, they contribute no other data). -/
structure CosmosRaw where
  messages : List CosmosMsg := []
  timestamp : Option String := none
  time : Option String := none
  fee : Option String := none
  code : Option Nat := none
  txhash : Option String := none
  hash : Option String := none
  height : Option String := none
  block : Option String := none
  deriving DecidableEq, Repr

/-- Embedding of `parseCosmosTransaction` (transactions.ts lines 154-193).
`firstMsg = messages[0] || {}` becomes `headD` with the all-absent record;
`tx.code === 0 || !tx.code` is `code.getD 0 = 0`. -/
def parseCosmosTransaction (tx : CosmosRaw) (chain : ChainConfig) : Transaction :=
  let firstMsg := tx.messages.headD {}
  let timestamp := jsOr tx.timestamp (jsOr tx.time "0")
  let value := jsOr (((firstMsg.amount.getD []).head?).map CosmosCoin.amount) "0"
  let fee := jsOr tx.fee "0"
  let msgType := jsOr firstMsg.atType ""
  let type :=
    if strIncludes msgType "MsgDelegate" then TxType.stake
    else if strIncludes msgType "MsgUndelegate" then TxType.unstake
    else if strIncludes msgType "MsgSend" then TxType.transfer
    else TxType.transfer
  let status := if tx.code.getD 0 = 0 then TxStatus.success else TxStatus.failed
  { hash := jsOr tx.txhash (jsOr tx.hash "")
    blockNumber := jsOr tx.height (jsOr tx.block "")
    timestamp := timestamp
    fromAddr := jsOr firstMsg.from_address (jsOr firstMsg.delegator_address "")
    toAddr := jsOr firstMsg.to_address (jsOr firstMsg.validator_address "")
    value := value
    valueFormatted := formatValue value chain.decimals
    fee := fee
    feeFormatted := formatValue fee chain.decimals
    status := status
    type := type
    chainId := chain.id
    chainName := chain.name
    symbol := chain.symbol
    method := if (msgType.splitOn ".").getLastD "" = "" then none else some ((msgType.splitOn ".").getLastD "")
    gasUsed := none
    gasPrice := none
    nonce := none
    input := none
    explorerUrl := chain.explorerUrl ++ "/txs/" ++
      (if tx.txhash.getD "" ≠ "" then tx.txhash.getD "" else tx.hash.getD "undefined") }


/-- Raw Helius record: the fields the inline mapper in
`fetchSolanaTransactions` (transactions.ts lines 344-360) reads.
`transactionError` keeps only its truthiness. -/
structure HeliusRaw where
  signature : Option String := none
  slot : Option String := none
  timestamp : Option String := none
  destination : Option String := none
  fee : Option String := none
  transactionError : Bool := false
  deriving DecidableEq, Repr

/-- Embedding of the inline Helius record mapper (lines 344-360). -/
def heliusTransaction (address : String) (tx : HeliusRaw) (chain : ChainConfig) : Transaction :=
  { hash := jsOr tx.signature ""
    blockNumber := jsOr tx.slot ""
    timestamp := jsOr tx.timestamp "0"
    fromAddr := address
    toAddr := jsOr tx.destination ""
    value := "0"
    valueFormatted := "0"
    fee := jsOr tx.fee "0"
    feeFormatted := formatValue (jsOr tx.fee "0") chain.decimals
    status := if tx.transactionError then TxStatus.failed else TxStatus.success
    type := TxType.transfer
    chainId := chain.id
    chainName := chain.name
    symbol := chain.symbol
    method := none
    gasUsed := none
    gasPrice := none
    nonce := none
    input := none
    explorerUrl := chain.explorerUrl ++ "/tx/" ++ tx.signature.getD "undefined" }

/-- An address/value pair: one Blockchain.info `prev_out`/`out` entry, or one
Blockstream `prevout`/`vout` entry (`scriptpubkey_address` as `addr`). -/
structure BtcOut where
  addr : String := ""
  value : Nat := 0
  deriving DecidableEq, Repr

/-- Raw Blockchain.info transaction as typed at lines 466-476; `inputs`
entries stand for `inputs[i].prev_out`.  An absent `block_height` is
modelled as `0` (both are falsy). -/
structure BtcPrimaryRaw where
  hash : String := ""
  block_height : Nat := 0
  time : Nat := 0
  inputs : List BtcOut := []
  out : List BtcOut := []
  fee : Nat := 0
  deriving DecidableEq, Repr

/-- Embedding of the inline Blockchain.info record mapper (lines 482-502). -/
def btcPrimaryTransaction (address : String) (tx : BtcPrimaryRaw) (chain : ChainConfig) : Transaction :=
  let value := ((tx.out.find? (fun o => o.addr == address)).map BtcOut.value).getD 0
  { hash := tx.hash
    blockNumber := if tx.block_height = 0 then "pending" else natToStr tx.block_height
    timestamp := natToStr tx.time
    fromAddr := jsOr ((tx.inputs.head?).map BtcOut.addr) "coinbase"
    toAddr := ((tx.out.head?).map BtcOut.addr).getD ""
    value := natToStr value
    valueFormatted := formatValue (natToStr value) chain.decimals
    fee := natToStr (jsOrNat tx.fee 0)
    feeFormatted := formatValue (natToStr (jsOrNat tx.fee 0)) chain.decimals
    status := if tx.block_height ≠ 0 then TxStatus.success else TxStatus.pending
    type := TxType.transfer
    chainId := chain.id
    chainName := chain.name
    symbol := chain.symbol
    method := none
    gasUsed := none
    gasPrice := none
    nonce := none
    input := none
    explorerUrl := "https://blockchair.com/bitcoin/transaction/" ++ tx.hash }

/-- Blockstream per-transaction `status` object. -/
structure BtcStatus where
  confirmed : Bool := false
  block_height : Nat := 0
  block_time : Nat := 0
  deriving DecidableEq, Repr

/-- Raw Blockstream transaction as typed at lines 523-529; `vin` entries
stand for `vin[i].prevout`. -/
structure BtcFallbackRaw where
  txid : String := ""
  status : BtcStatus := {}
  fee : Nat := 0
  vin : List BtcOut := []
  vout : List BtcOut := []
  deriving DecidableEq, Repr

/-- Embedding of the inline Blockstream record mapper (lines 535-555);
`nowSec` models `Math.floor(Date.now() / 1000)`. -/
def btcFallbackTransaction (nowSec : Nat) (address : String) (tx : BtcFallbackRaw) (chain : ChainConfig) : Transaction :=
  let value := ((tx.vout.find? (fun o => o.addr == address)).map BtcOut.value).getD 0
  { hash := tx.txid
    blockNumber := if tx.status.block_height = 0 then "pending" else natToStr tx.status.block_height
    timestamp := natToStr (jsOrNat tx.status.block_time nowSec)
    fromAddr := jsOr ((tx.vin.head?).map BtcOut.addr) "coinbase"
    toAddr := ((tx.vout.head?).map BtcOut.addr).getD ""
    value := natToStr value
    valueFormatted := formatValue (natToStr value) chain.decimals
    fee := natToStr (jsOrNat tx.fee 0)
    feeFormatted := formatValue (natToStr (jsOrNat tx.fee 0)) chain.decimals
    status := if tx.status.confirmed then TxStatus.success else TxStatus.pending
    type := TxType.transfer
    chainId := chain.id
    chainName := chain.name
    symbol := chain.symbol
    method := none
    gasUsed := none
    gasPrice := none
    nonce := none
    input := none
    explorerUrl := "https://blockstream.info/tx/" ++ tx.txid }

/-- Raw TronScan transaction as typed at lines 584-594; `costFee` stands for
`tx.cost?.fee` (absent modelled as `0`); `timestamp` is in milliseconds. -/
structure TronRaw where
  hash : String := ""
  block : Nat := 0
  timestamp : Nat := 0
  ownerAddress : String := ""
  toAddress : String := ""
  amount : Nat := 0
  costFee : Nat := 0
  contractRet : String := ""
  contractType : Nat := 0
  deriving DecidableEq, Repr

/-- Embedding of the inline TronScan record mapper (lines 602-618). -/
def tronTransaction (tx : TronRaw) (chain : ChainConfig) : Transaction :=
  { hash := tx.hash
    blockNumber := natToStr tx.block
    timestamp := natToStr (tx.timestamp / 1000)
    fromAddr := tx.ownerAddress
    toAddr := tx.toAddress
    value := natToStr (jsOrNat tx.amount 0)
    valueFormatted := formatValue (natToStr (jsOrNat tx.amount 0)) chain.decimals
    fee := natToStr (jsOrNat tx.costFee 0)
    feeFormatted := formatValue (natToStr (jsOrNat tx.costFee 0)) chain.decimals
    status := if tx.contractRet = "SUCCESS" then TxStatus.success else TxStatus.failed
    type := if tx.contractType = 1 then TxType.transfer else TxType.contract
    chainId := chain.id
    chainName := chain.name
    symbol := chain.symbol
    method := none
    gasUsed := none
    gasPrice := none
    nonce := none
    input := none
    explorerUrl := "https://tronscan.org/#/transaction/" ++ tx.hash }

/-- Raw NearBlocks transaction as typed at lines 647-656.
`block_timestamp_sec` stands for
`Math.floor(new Date(tx.block_timestamp).getTime() / 1000)` with the host
`Date` parsing abstracted to its resulting epoch seconds; `deposit` and
`transaction_fee` stand for the nested `actions_agg`/`outcomes_agg` numbers
(absent modelled as `0`); `outcomesStatus` for `tx.outcomes?.status`. -/
structure NearRaw where
  transaction_hash : String := ""
  included_in_block_hash : String := ""
  block_timestamp_sec : Nat := 0
  signer_account_id : String := ""
  receiver_account_id : String := ""
  deposit : Nat := 0
  transaction_fee : Nat := 0
  outcomesStatus : Bool := false
  deriving DecidableEq, Repr

/-- Embedding of the inline NearBlocks record mapper (lines 664-680). -/
def nearTransaction (tx : NearRaw) (chain : ChainConfig) : Transaction :=
  { hash := tx.transaction_hash
    blockNumber := tx.included_in_block_hash
    timestamp := natToStr tx.block_timestamp_sec
    fromAddr := tx.signer_account_id
    toAddr := tx.receiver_account_id
    value := natToStr (jsOrNat tx.deposit 0)
    valueFormatted := formatValue (natToStr (jsOrNat tx.deposit 0)) chain.decimals
    fee := natToStr (jsOrNat tx.transaction_fee 0)
    feeFormatted := formatValue (natToStr (jsOrNat tx.transaction_fee 0)) chain.decimals
    status := if tx.outcomesStatus then TxStatus.success else TxStatus.failed
    type := TxType.transfer
    chainId := chain.id
    chainName := chain.name
    symbol := chain.symbol
    method := none
    gasUsed := none
    gasPrice := none
    nonce := none
    input := none
    explorerUrl := "https://nearblocks.io/txns/" ++ tx.transaction_hash }

/-- Raw Sui transaction block as typed at lines 721-727, flattened to the
leaves the mapper reads: `sender` stands for `tx.transaction?.data?.sender`
(`""` when absent), `statusStatus` for `tx.effects?.status?.status`,
`computationCost` for `tx.effects?.gasUsed?.computationCost` (a digit
string; `Number()` on it is `strToNat`). -/
structure SuiRaw where
  digest : String := ""
  checkpoint : String := ""
  timestampMs : String := ""
  sender : String := ""
  statusStatus : String := ""
  computationCost : String := ""
  deriving DecidableEq, Repr

/-- Embedding of the inline Sui record mapper (lines 735-751). -/
def suiTransaction (address : String) (tx : SuiRaw) (chain : ChainConfig) : Transaction :=
  { hash := tx.digest
    blockNumber := tx.checkpoint
    timestamp := natToStr (strToNat tx.timestampMs / 1000)
    fromAddr := if tx.sender = "" then address else tx.sender
    toAddr := ""
    value := "0"
    valueFormatted := "0"
    fee := if tx.computationCost = "" then "0" else tx.computationCost
    feeFormatted := formatValue (if tx.computationCost = "" then "0" else tx.computationCost) chain.decimals
    status := if tx.statusStatus = "success" then TxStatus.success else TxStatus.failed
    type := TxType.transfer
    chainId := chain.id
    chainName := chain.name
    symbol := chain.symbol
    method := none
    gasUsed := none
    gasPrice := none
    nonce := none
    input := none
    explorerUrl := "https://suiscan.xyz/mainnet/tx/" ++ tx.digest }

/-- Raw Aptos transaction as typed at lines 778-786; `timestamp` is a
microseconds digit string, `gas_used`/`gas_unit_price` are digit strings
multiplied as BigInts. -/
structure AptosRaw where
  hash : String := ""
  version : String := ""
  timestamp : String := "0"
  sender : String := ""
  success : Bool := true
  gas_used : String := "0"
  gas_unit_price : String := "0"
  deriving DecidableEq, Repr

/-- Embedding of the inline Aptos record mapper (lines 792-808). -/
def aptosTransaction (tx : AptosRaw) (chain : ChainConfig) : Transaction :=
  { hash := tx.hash
    blockNumber := tx.version
    timestamp := natToStr (strToNat tx.timestamp / 1000000)
    fromAddr := tx.sender
    toAddr := ""
    value := "0"
    valueFormatted := "0"
    fee := natToStr (strToNat tx.gas_used * strToNat tx.gas_unit_price)
    feeFormatted := formatValue (natToStr (strToNat tx.gas_used * strToNat tx.gas_unit_price)) chain.decimals
    status := if tx.success then TxStatus.success else TxStatus.failed
    type := TxType.transfer
    chainId := chain.id
    chainName := chain.name
    symbol := chain.symbol
    method := none
    gasUsed := none
    gasPrice := none
    nonce := none
    input := none
    explorerUrl := "https://explorer.aptoslabs.com/txn/" ++ tx.hash ++ "?network=mainnet" }

/-- One iteration's worth of `Math.random()` draws in
`generateMockTransactions`, abstracted to their floored results: the two
index draws land in the list ranges, so they are `Fin`s. -/
structure MockDraw where
  outgoing : Bool := true
  typeIdx : Fin 5 := 0
  statusIdx : Fin 4 := 0
  value : Nat := 0
  fee : Nat := 0
  jitter : Nat := 0
  hash : String := ""
  addr : String := ""
  deriving DecidableEq, Repr

/-- Randomness and clock environment of `generateMockTransactions`:
`nowSec` models `Math.floor(Date.now() / 1000)` and `draws i` the random
draws of iteration `i`. -/
structure MockEnv where
  nowSec : Nat := 0
  draws : Nat → MockDraw := fun _ => {}

/-- The `types` list of `generateMockTransactions` (line 829). -/
def mockTypes : List TxType :=
  [TxType.transfer, TxType.contract, TxType.token, TxType.stake, TxType.swap]

/-- The `statuses` list of `generateMockTransactions` (line 830). -/
def mockStatuses : List TxStatus :=
  [TxStatus.success, TxStatus.success, TxStatus.success, TxStatus.failed]

/-- Embedding of one iteration of the `Array.from` body of
`generateMockTransactions` (lines 833-867). -/
def mockTransaction (env : MockEnv) (address : String) (chain : ChainConfig) (i : Nat) : Transaction :=
  let d := env.draws i
  let type := mockTypes.getD d.typeIdx.val TxType.transfer
  let status := mockStatuses.getD d.statusIdx.val TxStatus.success
  let value := natToStr d.value
  let fee := natToStr d.fee
  let timestamp := natToStr (env.nowSec - i * 3600 - d.jitter)
  { hash := d.hash
    blockNumber := natToStr (20000000 - i * 100)
    timestamp := timestamp
    fromAddr := if d.outgoing then address else d.addr
    toAddr := if d.outgoing then d.addr else address
    value := value
    valueFormatted := formatValue value chain.decimals
    fee := fee
    feeFormatted := formatValue fee chain.decimals
    status := status
    type := type
    chainId := chain.id
    chainName := chain.name
    symbol := chain.symbol
    method := if type = TxType.contract then some "swap" else none
    gasUsed := none
    gasPrice := none
    nonce := none
    input := none
    explorerUrl := chain.explorerUrl ++ "/tx/" ++ d.hash }

/-- Embedding of `generateMockTransactions` (lines 824-868). -/
def generateMockTransactions (env : MockEnv) (address : String) (chain : ChainConfig) (count : Nat) : List Transaction :=
  (List.range count).map (mockTransaction env address chain)

/-- Outcome of one Etherscan-family network attempt (one endpoint index):
`transport` models `fetch`/`json()` throwing; `badEnvelope` models
`data.status !== '1' || !Array.isArray(data.result)` and carries the
computed `errorMsg` (line 236; `""` models an undefined message); `ok`
carries the `result` array. -/
inductive EvmAttempt where
  | transport (msg : String)
  | badEnvelope (errorMsg : String)
  | ok (result : List EtherscanRaw)

/-- An attempt that did not produce a usable `result` array. -/
def EvmAttempt.fails : EvmAttempt → Bool
  | .ok _ => false
  | _ => true

/-- The message of the `Error` the source throws for this attempt when no
fallback endpoint remains (lines 245 and 266). -/
def EvmAttempt.errMsg : EvmAttempt → String
  | .transport m => m
  | .badEnvelope m => if m = "" then "Failed to fetch transactions" else m
  | .ok _ => ""

/-- Embedding of `fetchEVMTransactions` (lines 197-268): try the attempt at
`endpointIndex`, and on either failure kind retry the next endpoint while
`endpointIndex < allEndpoints.length - 1`, else reject with this attempt's
error. -/
def fetchEVMTransactions (env : Nat → EvmAttempt) (chain : ChainConfig) (address : String)
    (page limit : Nat) (endpointIndex : Nat) : Except String TransactionResponse :=
  match env endpointIndex with
  | .ok result =>
      let transactions := result.map (fun tx => parseEtherscanTransaction tx chain)
      .ok { transactions := transactions, totalCount := transactions.length,
            page := page, limit := limit, hasMore := transactions.length == limit }
  | .badEnvelope m =>
      if endpointIndex < chain.allEndpoints.length - 1 then
        fetchEVMTransactions env chain address page limit (endpointIndex + 1)
      else .error (if m = "" then "Failed to fetch transactions" else m)
  | .transport m =>
      if endpointIndex < chain.allEndpoints.length - 1 then
        fetchEVMTransactions env chain address page limit (endpointIndex + 1)
      else .error m
termination_by chain.allEndpoints.length - endpointIndex
decreasing_by all_goals omega

/-- Outcome of the single Subscan POST attempt: `badEnvelope` models
`data.code !== 0 || !data.data?.extrinsics` and carries `data.message`
(`""` models an undefined message); `ok` carries the extrinsics and
`data.data.count`. -/
inductive SubscanAttempt where
  | transport (msg : String)
  | badEnvelope (message : String)
  | ok (extrinsics : List SubscanRaw) (count : Nat)

/-- An attempt that did not produce extrinsics. -/
def SubscanAttempt.fails : SubscanAttempt → Bool
  | .ok _ _ => false
  | _ => true

/-- The message of the rejection the source produces for this attempt. -/
def SubscanAttempt.errMsg : SubscanAttempt → String
  | .transport m => m
  | .badEnvelope m => if m = "" then "Failed to fetch transactions" else m
  | .ok _ _ => ""

/-- Embedding of `fetchSubstrateTransactions` (lines 272-321): one attempt
against `chain.apiEndpoint` only; any failure is rethrown by the catch
block, no fallback endpoint is ever consulted. -/
def fetchSubstrateTransactions (env : SubscanAttempt) (chain : ChainConfig) (address : String)
    (page limit : Nat) : Except String TransactionResponse :=
  match env with
  | .ok extrinsics count =>
      let transactions := extrinsics.map (fun tx => parseSubscanTransaction tx chain)
      .ok { transactions := transactions, totalCount := jsOrNat count transactions.length,
            page := page, limit := limit, hasMore := transactions.length == limit }
  | .badEnvelope m => .error (if m = "" then "Failed to fetch transactions" else m)
  | .transport m => .error m

/-- Outcome of the Helius attempt: `notArray` models a non-array JSON body. -/
inductive HeliusAttempt where
  | transport (msg : String)
  | notArray
  | ok (data : List HeliusRaw)

/-- Outcome of the Solscan attempt: `notArray` models `data.data` not being
an array; `ok` carries `data.data` and `data.total`. -/
inductive SolscanAttempt where
  | transport (msg : String)
  | notArray
  | ok (data : List SolscanRaw) (total : Nat)

/-- Environment of `fetchSolanaTransactions`: the optional
`VITE_HELIUS_API_KEY` and the outcome of whichever provider is used. -/
structure SolanaEnv where
  heliusKey : Option String := none
  helius : HeliusAttempt := .notArray
  solscan : SolscanAttempt := .notArray

/-- The message of the rejection `fetchSolanaTransactions` produces. -/
def SolanaEnv.errMsg (env : SolanaEnv) : String :=
  if env.heliusKey.getD "" ≠ "" then
    match env.helius with
    | .transport m => m
    | .notArray => "Invalid response from Helius"
    | .ok _ => ""
  else
    match env.solscan with
    | .transport m => m
    | .notArray => "Solscan API requires authentication. Add VITE_HELIUS_API_KEY for Solana support."
    | .ok _ _ => ""

/-- Failure of the attempt `fetchSolanaTransactions` actually makes. -/
def SolanaEnv.fails (env : SolanaEnv) : Bool :=
  if env.heliusKey.getD "" ≠ "" then
    match env.helius with
    | .ok _ => false
    | _ => true
  else
    match env.solscan with
    | .ok _ _ => false
    | _ => true

/-- Embedding of `fetchSolanaTransactions` (lines 324-399): with a truthy
Helius key the Helius branch is used and its errors are rethrown (the
Solscan path is never reached); otherwise the Solscan branch runs.  Neither
branch consults fallback endpoints. -/
def fetchSolanaTransactions (env : SolanaEnv) (chain : ChainConfig) (address : String)
    (page limit : Nat) : Except String TransactionResponse :=
  if env.heliusKey.getD "" ≠ "" then
    match env.helius with
    | .ok data =>
        let transactions := data.map (fun tx => heliusTransaction address tx chain)
        .ok { transactions := transactions, totalCount := transactions.length,
              page := page, limit := limit, hasMore := transactions.length == limit }
    | .notArray => .error "Invalid response from Helius"
    | .transport m => .error m
  else
    match env.solscan with
    | .ok data total =>
        let transactions := data.map (fun tx => parseSolscanTransaction tx chain)
        .ok { transactions := transactions, totalCount := jsOrNat total transactions.length,
              page := page, limit := limit, hasMore := transactions.length == limit }
    | .notArray => .error "Solscan API requires authentication. Add VITE_HELIUS_API_KEY for Solana support."
    | .transport m => .error m

/-- Outcome of one Cosmos LCD attempt (one endpoint index): `badShape`
models `data.tx_responses` not being an array; `ok` carries `tx_responses`
and `data.pagination?.total`. -/
inductive CosmosAttempt where
  | transport (msg : String)
  | badShape
  | ok (tx_responses : List CosmosRaw) (paginationTotal : Option String)

/-- An attempt that did not produce a `tx_responses` array. -/
def CosmosAttempt.fails : CosmosAttempt → Bool
  | .ok _ _ => false
  | _ => true

/-- The message of the `Error` the source throws for this attempt when no
fallback endpoint remains. -/
def CosmosAttempt.errMsg : CosmosAttempt → String
  | .transport m => m
  | .badShape => "Failed to fetch Cosmos transactions"
  | .ok _ _ => ""

/-- Embedding of `fetchCosmosTransactions` (lines 402-448): same recursive
fallback-endpoint scheme as the EVM fetcher. -/
def fetchCosmosTransactions (env : Nat → CosmosAttempt) (chain : ChainConfig) (address : String)
    (page limit : Nat) (endpointIndex : Nat) : Except String TransactionResponse :=
  match env endpointIndex with
  | .ok tx_responses paginationTotal =>
      let transactions := tx_responses.map (fun tx => parseCosmosTransaction tx chain)
      .ok { transactions := transactions, totalCount := strToNat (jsOr paginationTotal "0"),
            page := page, limit := limit, hasMore := transactions.length == limit }
  | .badShape =>
      if endpointIndex < chain.allEndpoints.length - 1 then
        fetchCosmosTransactions env chain address page limit (endpointIndex + 1)
      else .error "Failed to fetch Cosmos transactions"
  | .transport m =>
      if endpointIndex < chain.allEndpoints.length - 1 then
        fetchCosmosTransactions env chain address page limit (endpointIndex + 1)
      else .error m
termination_by chain.allEndpoints.length - endpointIndex
decreasing_by all_goals omega

/-- Outcome of the Blockchain.info attempt: `notArray` models `data.txs` not
being an array; `ok` carries `data.txs` and `data.n_tx`. -/
inductive BtcPrimaryAttempt where
  | transport (msg : String)
  | notArray
  | ok (txs : List BtcPrimaryRaw) (n_tx : Nat)

/-- Outcome of the Blockstream attempt: the JSON body is the array itself. -/
inductive BtcFallbackAttempt where
  | transport (msg : String)
  | notArray
  | ok (data : List BtcFallbackRaw)

/-- Environment of `fetchBitcoinTransactions`: outcomes of the two distinct
providers plus the clock read by the Blockstream mapper. -/
structure BtcEnv where
  primary : BtcPrimaryAttempt := .notArray
  fallback : BtcFallbackAttempt := .notArray
  nowSec : Nat := 0

/-- Whether the Blockchain.info attempt fails (either failure kind makes the
source fall back to Blockstream). -/
def BtcEnv.primaryFails (env : BtcEnv) : Bool :=
  match env.primary with
  | .ok _ _ => false
  | _ => true

/-- The message of the rejection the Blockstream branch produces. -/
def BtcFallbackAttempt.errMsg : BtcFallbackAttempt → String
  | .transport m => m
  | .notArray => "Failed to fetch Bitcoin transactions"
  | .ok _ => ""

/-- Embedding of `fetchBitcoinTransactions` (lines 451-568): the primary
Blockchain.info strategy falls back to Blockstream on any failure
(hard-coded providers, not the chain's endpoint list); the Blockstream
branch pages by `slice(offset, offset + limit)` and propagates its own
error on failure. -/
def fetchBitcoinTransactions (env : BtcEnv) (chain : ChainConfig) (address : String)
    (page limit : Nat) : Bool → Except String TransactionResponse
  | false =>
      match env.primary with
      | .ok txs n_tx =>
          let transactions := txs.map (fun tx => btcPrimaryTransaction address tx chain)
          .ok { transactions := transactions, totalCount := jsOrNat n_tx transactions.length,
                page := page, limit := limit, hasMore := transactions.length == limit }
      | _ => fetchBitcoinTransactions env chain address page limit true
  | true =>
      let offset := (page - 1) * limit
      match env.fallback with
      | .ok data =>
          let transactions := ((data.drop offset).take limit).map
            (fun tx => btcFallbackTransaction env.nowSec address tx chain)
          .ok { transactions := transactions, totalCount := transactions.length,
                page := page, limit := limit, hasMore := transactions.length == limit }
      | .notArray => .error "Failed to fetch Bitcoin transactions"
      | .transport m => .error m
termination_by b => if b then 0 else 1
decreasing_by simp

/-- Outcome of the single TronScan attempt: `notArray` models `data.data`
not being an array; `ok` carries `data.data` and `data.total`. -/
inductive TronAttempt where
  | transport (msg : String)
  | notArray
  | ok (data : List TronRaw) (total : Nat)

/-- The message of the rejection `fetchTronTransactions` produces. -/
def TronAttempt.errMsg : TronAttempt → String
  | .transport m => m
  | .notArray => "Failed to fetch TRON transactions"
  | .ok _ _ => ""

/-- An attempt that did not produce a data array. -/
def TronAttempt.fails : TronAttempt → Bool
  | .ok _ _ => false
  | _ => true

/-- Embedding of `fetchTronTransactions` (lines 571-631): one attempt, no
fallback; failures are rethrown. -/
def fetchTronTransactions (env : TronAttempt) (chain : ChainConfig) (address : String)
    (page limit : Nat) : Except String TransactionResponse :=
  match env with
  | .ok data total =>
      let transactions := data.map (fun tx => tronTransaction tx chain)
      .ok { transactions := transactions, totalCount := jsOrNat total transactions.length,
            page := page, limit := limit, hasMore := transactions.length == limit }
  | .notArray => .error "Failed to fetch TRON transactions"
  | .transport m => .error m

/-- Outcome of the single NearBlocks attempt. -/
inductive NearAttempt where
  | transport (msg : String)
  | notArray
  | ok (txns : List NearRaw) (count : Nat)

/-- The message of the rejection `fetchNearTransactions` produces. -/
def NearAttempt.errMsg : NearAttempt → String
  | .transport m => m
  | .notArray => "Failed to fetch NEAR transactions"
  | .ok _ _ => ""

/-- An attempt that did not produce a `txns` array. -/
def NearAttempt.fails : NearAttempt → Bool
  | .ok _ _ => false
  | _ => true

/-- Embedding of `fetchNearTransactions` (lines 634-693): one attempt, no
fallback. -/
def fetchNearTransactions (env : NearAttempt) (chain : ChainConfig) (address : String)
    (page limit : Nat) : Except String TransactionResponse :=
  match env with
  | .ok txns count =>
      let transactions := txns.map (fun tx => nearTransaction tx chain)
      .ok { transactions := transactions, totalCount := jsOrNat count transactions.length,
            page := page, limit := limit, hasMore := transactions.length == limit }
  | .notArray => .error "Failed to fetch NEAR transactions"
  | .transport m => .error m

/-- Outcome of the single Sui JSON-RPC attempt: `noData` models a missing
`data.result?.data`. -/
inductive SuiAttempt where
  | transport (msg : String)
  | noData
  | ok (data : List SuiRaw)

/-- The message of the rejection `fetchSuiTransactions` produces. -/
def SuiAttempt.errMsg : SuiAttempt → String
  | .transport m => m
  | .noData => "Failed to fetch Sui transactions"
  | .ok _ => ""

/-- An attempt that did not produce `result.data`. -/
def SuiAttempt.fails : SuiAttempt → Bool
  | .ok _ => false
  | _ => true

/-- Embedding of `fetchSuiTransactions` (lines 696-764): one attempt, no
fallback. -/
def fetchSuiTransactions (env : SuiAttempt) (chain : ChainConfig) (address : String)
    (page limit : Nat) : Except String TransactionResponse :=
  match env with
  | .ok data =>
      let transactions := data.map (fun tx => suiTransaction address tx chain)
      .ok { transactions := transactions, totalCount := transactions.length,
            page := page, limit := limit, hasMore := transactions.length == limit }
  | .noData => .error "Failed to fetch Sui transactions"
  | .transport m => .error m

/-- Outcome of the single Aptos REST attempt. -/
inductive AptosAttempt where
  | transport (msg : String)
  | notArray
  | ok (data : List AptosRaw)

/-- The message of the rejection `fetchAptosTransactions` produces. -/
def AptosAttempt.errMsg : AptosAttempt → String
  | .transport m => m
  | .notArray => "Failed to fetch Aptos transactions"
  | .ok _ => ""

/-- An attempt that did not produce an array body. -/
def AptosAttempt.fails : AptosAttempt → Bool
  | .ok _ => false
  | _ => true

/-- Embedding of `fetchAptosTransactions` (lines 767-821): one attempt, no
fallback. -/
def fetchAptosTransactions (env : AptosAttempt) (chain : ChainConfig) (address : String)
    (page limit : Nat) : Except String TransactionResponse :=
  match env with
  | .ok data =>
      let transactions := data.map (fun tx => aptosTransaction tx chain)
      .ok { transactions := transactions, totalCount := transactions.length,
            page := page, limit := limit, hasMore := transactions.length == limit }
  | .notArray => .error "Failed to fetch Aptos transactions"
  | .transport m => .error m

/-- The full network-and-host environment a `fetchTransactions` call runs
against: one oracle per provider family, plus the mock generator's
randomness and clock (the latter is not a network resource). -/
structure NetEnv where
  evm : Nat → EvmAttempt := fun _ => .transport ""
  subscan : SubscanAttempt := .transport ""
  solana : SolanaEnv := {}
  cosmos : Nat → CosmosAttempt := fun _ => .transport ""
  btc : BtcEnv := {}
  tron : TronAttempt := .transport ""
  near : NearAttempt := .transport ""
  sui : SuiAttempt := .transport ""
  aptos : AptosAttempt := .transport ""
  mock : MockEnv := {}

/-- Embedding of the dispatcher `fetchTransactions` (lines 871-925):
registry lookup, mock branch, per-chain-id special cases, then dispatch by
`apiType`. -/
def fetchTransactions (getChainById : String → Option ChainConfig) (env : NetEnv)
    (address chainId : String) (page limit : Nat) (useMock : Bool) :
    Except String TransactionResponse :=
  match getChainById chainId with
  | none => .error ("Chain " ++ chainId ++ " not found")
  | some chain =>
    if useMock then
      let mockTxs := generateMockTransactions env.mock address chain limit
      .ok { transactions := mockTxs, totalCount := 100,
            page := page, limit := limit, hasMore := decide (page < 4) }
    else if chain.id = "bitcoin" then fetchBitcoinTransactions env.btc chain address page limit false
    else if chain.id = "tron" then fetchTronTransactions env.tron chain address page limit
    else if chain.id = "near" then fetchNearTransactions env.near chain address page limit
    else if chain.id = "sui" then fetchSuiTransactions env.sui chain address page limit
    else if chain.id = "aptos" then fetchAptosTransactions env.aptos chain address page limit
    else
      match chain.apiType with
      | .etherscan => fetchEVMTransactions env.evm chain address page limit 0
      | .subscan => fetchSubstrateTransactions env.subscan chain address page limit
      | .solscan => fetchSolanaTransactions env.solana chain address page limit
      | .mintscan => fetchCosmosTransactions env.cosmos chain address page limit 0
      | .custom => .error (chain.name ++ " API not yet implemented. Check back soon!")

/-- An attempt that did not produce an array body (Blockstream). -/
def BtcFallbackAttempt.fails : BtcFallbackAttempt → Bool
  | .ok _ => false
  | _ => true

/-- A sample Etherscan-family registry entry shaped like the `ethereum`
chain (used to instantiate theorems at concrete inputs). -/
def sampleChain : ChainConfig :=
  { id := "ethereum", name := "Ethereum", symbol := "ETH", decimals := 18,
    apiEndpoint := "https://api.etherscan.io/api", apiType := ApiType.etherscan,
    fallbackEndpoints := [], explorerUrl := "https://etherscan.io" }

/-- The sample chain with two fallback endpoints (an endpoint list of
three). -/
def sampleChain3 : ChainConfig :=
  { sampleChain with
    fallbackEndpoints := ["https://eth.blockscout.com/api", "https://api.etherscan.io/v2/api"] }

/-- A sample Subscan-family registry entry that does declare a fallback
endpoint. -/
def sampleSubChain : ChainConfig :=
  { id := "polkadot", name := "Polkadot", symbol := "DOT", decimals := 10,
    apiEndpoint := "https://polkadot.api.subscan.io", apiType := ApiType.subscan,
    fallbackEndpoints := ["https://polkadot.webapi.subscan.io"],
    explorerUrl := "https://polkadot.subscan.io" }

/-- A sample registry resolving only `"ethereum"`. -/
def sampleRegistry : String → Option ChainConfig :=
  fun s => if s = "ethereum" then some sampleChain else none

/-- Helper: `formatValue` on the literal `"0"` short-circuits. -/
theorem formatValue_zero (d : Nat) : formatValue "0" d = "0" := rfl

/-- Helper: a failing EVM attempt with a fallback endpoint remaining makes
`fetchEVMTransactions` equal its own retry on the next index. -/
theorem fetchEVM_retry_step (env : Nat → EvmAttempt) (chain : ChainConfig) (a : String)
    (p l i : Nat) (hfail : (env i).fails = true) (hlt : i < chain.allEndpoints.length - 1) :
    fetchEVMTransactions env chain a p l i = fetchEVMTransactions env chain a p l (i + 1) := by
  cases h : env i with
  | transport m => rw [fetchEVMTransactions.eq_def, h]; simp [hlt]
  | badEnvelope m => rw [fetchEVMTransactions.eq_def, h]; simp [hlt]
  | ok r => rw [h] at hfail; simp [EvmAttempt.fails] at hfail

/-- Helper: a failing EVM attempt with no fallback endpoint remaining makes
`fetchEVMTransactions` reject with that attempt's error. -/
theorem fetchEVM_last_error (env : Nat → EvmAttempt) (chain : ChainConfig) (a : String)
    (p l i : Nat) (hfail : (env i).fails = true)
    (hge : ¬ i < chain.allEndpoints.length - 1) :
    fetchEVMTransactions env chain a p l i = .error ((env i).errMsg) := by
  cases h : env i with
  | transport m => rw [fetchEVMTransactions.eq_def, h]; simp [hge, EvmAttempt.errMsg]
  | badEnvelope m => rw [fetchEVMTransactions.eq_def, h]; simp [hge, EvmAttempt.errMsg]
  | ok r => rw [h] at hfail; simp [EvmAttempt.fails] at hfail

/-- Helper: the analogous retry step for the Cosmos fetcher. -/
theorem fetchCosmos_retry_step (env : Nat → CosmosAttempt) (chain : ChainConfig) (a : String)
    (p l i : Nat) (hfail : (env i).fails = true) (hlt : i < chain.allEndpoints.length - 1) :
    fetchCosmosTransactions env chain a p l i = fetchCosmosTransactions env chain a p l (i + 1) := by
  cases h : env i with
  | transport m => rw [fetchCosmosTransactions.eq_def, h]; simp [hlt]
  | badShape => rw [fetchCosmosTransactions.eq_def, h]; simp [hlt]
  | ok r t => rw [h] at hfail; simp [CosmosAttempt.fails] at hfail

/-- Helper: the analogous exhaustion step for the Cosmos fetcher. -/
theorem fetchCosmos_last_error (env : Nat → CosmosAttempt) (chain : ChainConfig) (a : String)
    (p l i : Nat) (hfail : (env i).fails = true)
    (hge : ¬ i < chain.allEndpoints.length - 1) :
    fetchCosmosTransactions env chain a p l i = .error ((env i).errMsg) := by
  cases h : env i with
  | transport m => rw [fetchCosmosTransactions.eq_def, h]; simp [hge, CosmosAttempt.errMsg]
  | badShape => rw [fetchCosmosTransactions.eq_def, h]; simp [hge, CosmosAttempt.errMsg]
  | ok r t => rw [h] at hfail; simp [CosmosAttempt.fails] at hfail

/-- C1: the spec's concrete examples for `formatValue` hold, but the fully
general claim (exact truncation of `v / 10 ^ d` for every `d`) fails
because the divisor is the binary64 value of `10 ** d`: at `d = 23` the
divisor equals the input `"99999999999999991611392"` (the double nearest
`10 ^ 23`), so the code returns `"1"` while `v / 10 ^ 23` truncated to six
fractional digits is `0.999999` (the integer `v * 10 ^ 6 / 10 ^ 23` is
`999999`, not `10 ^ 6`). -/
theorem formatValue_examples_and_truncation_bug :
    formatValue "1500000000000000000" 18 = "1.5" ∧
    formatValue "1000000" 6 = "1" ∧
    formatValue "0" 18 = "0" ∧
    formatValue "99999999999999991611392" 23 = "1" ∧
    99999999999999991611392 * 10 ^ 6 / 10 ^ 23 = 999999 ∧
    999999 ≠ 10 ^ 6 := by
  exact ⟨by decide, by decide, by decide, by decide, by decide, by decide⟩

/-- C6: the divisor `formatValue` divides and takes the remainder by is the
model of `BigInt(10 ** decimals)`, which equals the exact integer
`10 ^ d` only up to `d = 22`: at `d = 23` it is
`99999999999999991611392 ≠ 10 ^ 23`, and indeed no binary64 value
(`s * 2 ^ e` with a 53-bit significand) can equal `10 ^ 23` under any
rounding the host implements, so the claim that the divisor is exactly
`10 ^ d` for every `d` contradicts the floating-point exponentiation the
code performs. -/
theorem jsPow10_divisor_not_exact :
    (∀ d, d < 23 → jsPow10 d = 10 ^ d) ∧
    jsPow10 23 = 99999999999999991611392 ∧
    jsPow10 23 ≠ 10 ^ 23 ∧
    (∀ s e : Nat, s < 2 ^ 53 → s * 2 ^ e ≠ 10 ^ 23) := by
  refine ⟨by decide, by decide, by decide, ?_⟩
  intro s e hs heq
  rcases le_or_lt e 23 with he | he
  · have h10 : (10 : Nat) ^ 23 = 2 ^ 23 * 5 ^ 23 := by norm_num
    have hsplit : (2 : Nat) ^ 23 = 2 ^ (23 - e) * 2 ^ e := by
      rw [← pow_add]
      congr 1
      omega
    have hs' : s * 2 ^ e = (2 ^ (23 - e) * 5 ^ 23) * 2 ^ e := by
      rw [heq, h10, hsplit]
      ring
    have hse : s = 2 ^ (23 - e) * 5 ^ 23 :=
      Nat.eq_of_mul_eq_mul_right (pow_pos (by norm_num) e) hs'
    have hbig : 5 ^ 23 ≤ s := by
      rw [hse]
      exact Nat.le_mul_of_pos_left _ (pow_pos (by norm_num) _)
    have : (2 : Nat) ^ 53 < 5 ^ 23 := by norm_num
    omega
  · have hdvd : (2 : Nat) ^ 24 ∣ s * 2 ^ e :=
      Dvd.dvd.mul_left (pow_dvd_pow 2 (by omega)) s
    rw [heq] at hdvd
    exact absurd hdvd (by decide)

/-- Witness for C6: the theorem instantiated at concrete inputs — the
divisor is exact at the real-chain decimal count 18, and the binary64 value
`1 * 2 ^ 60` is not `10 ^ 23`. -/
theorem jsPow10_divisor_not_exact_witness :
    jsPow10 18 = 10 ^ 18 ∧ 1 * 2 ^ 60 ≠ 10 ^ 23 :=
  ⟨jsPow10_divisor_not_exact.1 18 (by omega),
   jsPow10_divisor_not_exact.2.2.2 1 60 (by norm_num)⟩

/-- Helper: a failing single attempt makes the Substrate fetcher reject
with that attempt's error, regardless of the chain's fallback endpoints. -/
theorem substrate_fail_error (env : SubscanAttempt) (chain : ChainConfig) (a : String)
    (p l : Nat) (h : env.fails = true) :
    fetchSubstrateTransactions env chain a p l = .error env.errMsg := by
  cases env with
  | transport m => rfl
  | badEnvelope m => rfl
  | ok e c => simp [SubscanAttempt.fails] at h

/-- Helper: a failing attempt makes the Solana fetcher reject with that
attempt's error (whichever provider branch the key selects). -/
theorem solana_fail_error (env : SolanaEnv) (chain : ChainConfig) (a : String)
    (p l : Nat) (h : env.fails = true) :
    fetchSolanaTransactions env chain a p l = .error env.errMsg := by
  by_cases hk : env.heliusKey.getD "" ≠ ""
  · cases hh : env.helius with
    | transport m => simp [fetchSolanaTransactions, SolanaEnv.errMsg, hk, hh]
    | notArray => simp [fetchSolanaTransactions, SolanaEnv.errMsg, hk, hh]
    | ok d => simp [SolanaEnv.fails, hk, hh] at h
  · cases hh : env.solscan with
    | transport m => simp [fetchSolanaTransactions, SolanaEnv.errMsg, hk, hh]
    | notArray => simp [fetchSolanaTransactions, SolanaEnv.errMsg, hk, hh]
    | ok d t => simp [SolanaEnv.fails, hk, hh] at h

/-- Helper: a failing single attempt makes the Tron fetcher reject with
that attempt's error. -/
theorem tron_fail_error (env : TronAttempt) (chain : ChainConfig) (a : String)
    (p l : Nat) (h : env.fails = true) :
    fetchTronTransactions env chain a p l = .error env.errMsg := by
  cases env with
  | transport m => rfl
  | notArray => rfl
  | ok d t => simp [TronAttempt.fails] at h

/-- Helper: a failing single attempt makes the Near fetcher reject with
that attempt's error. -/
theorem near_fail_error (env : NearAttempt) (chain : ChainConfig) (a : String)
    (p l : Nat) (h : env.fails = true) :
    fetchNearTransactions env chain a p l = .error env.errMsg := by
  cases env with
  | transport m => rfl
  | notArray => rfl
  | ok d t => simp [NearAttempt.fails] at h

/-- Helper: a failing single attempt makes the Sui fetcher reject with
that attempt's error. -/
theorem sui_fail_error (env : SuiAttempt) (chain : ChainConfig) (a : String)
    (p l : Nat) (h : env.fails = true) :
    fetchSuiTransactions env chain a p l = .error env.errMsg := by
  cases env with
  | transport m => rfl
  | noData => rfl
  | ok d => simp [SuiAttempt.fails] at h

/-- Helper: a failing single attempt makes the Aptos fetcher reject with
that attempt's error. -/
theorem aptos_fail_error (env : AptosAttempt) (chain : ChainConfig) (a : String)
    (p l : Nat) (h : env.fails = true) :
    fetchAptosTransactions env chain a p l = .error env.errMsg := by
  cases env with
  | transport m => rfl
  | notArray => rfl
  | ok d => simp [AptosAttempt.fails] at h

/-- Helper: any failure of the Blockchain.info attempt makes the Bitcoin
fetcher fall back to the Blockstream strategy. -/
theorem btc_primary_fail_retry (env : BtcEnv) (chain : ChainConfig) (a : String)
    (p l : Nat) (h : env.primaryFails = true) :
    fetchBitcoinTransactions env chain a p l false = fetchBitcoinTransactions env chain a p l true := by
  cases hp : env.primary with
  | transport m => rw [fetchBitcoinTransactions.eq_def, hp]
  | notArray => rw [fetchBitcoinTransactions.eq_def, hp]
  | ok t n => simp [BtcEnv.primaryFails, hp] at h

/-- Helper: a failing Blockstream attempt makes the Bitcoin fallback branch
reject with its error. -/
theorem btc_fallback_fail_error (env : BtcEnv) (chain : ChainConfig) (a : String)
    (p l : Nat) (h : env.fallback.fails = true) :
    fetchBitcoinTransactions env chain a p l true = .error env.fallback.errMsg := by
  cases hf : env.fallback with
  | transport m => rw [fetchBitcoinTransactions.eq_def, hf]; simp [BtcFallbackAttempt.errMsg, hf]
  | notArray => rw [fetchBitcoinTransactions.eq_def, hf]; simp [BtcFallbackAttempt.errMsg, hf]
  | ok d => rw [hf] at h; simp [BtcFallbackAttempt.fails] at h

/-- Helper: exhaustion induction for the EVM fetcher — with `k` endpoints
left after index `i` and every attempt from `i` on failing, the result is
the last endpoint's error. -/
theorem fetchEVM_exhaust_aux (env : Nat → EvmAttempt) (chain : ChainConfig) (a : String)
    (p l : Nat) :
    ∀ k i, chain.allEndpoints.length = i + k + 1 →
      (∀ j, i ≤ j → j < chain.allEndpoints.length → (env j).fails = true) →
      fetchEVMTransactions env chain a p l i =
        .error ((env (chain.allEndpoints.length - 1)).errMsg) := by
  intro k
  induction k with
  | zero =>
      intro i hlen hall
      have hi : i = chain.allEndpoints.length - 1 := by omega
      rw [fetchEVM_last_error env chain a p l i (hall i le_rfl (by omega)) (by omega), hi]
  | succ k ih =>
      intro i hlen hall
      rw [fetchEVM_retry_step env chain a p l i (hall i le_rfl (by omega)) (by omega)]
      exact ih (i + 1) (by omega) (fun j hij hj => hall j (by omega) hj)

/-- Helper: exhaustion induction for the Cosmos fetcher. -/
theorem fetchCosmos_exhaust_aux (env : Nat → CosmosAttempt) (chain : ChainConfig) (a : String)
    (p l : Nat) :
    ∀ k i, chain.allEndpoints.length = i + k + 1 →
      (∀ j, i ≤ j → j < chain.allEndpoints.length → (env j).fails = true) →
      fetchCosmosTransactions env chain a p l i =
        .error ((env (chain.allEndpoints.length - 1)).errMsg) := by
  intro k
  induction k with
  | zero =>
      intro i hlen hall
      have hi : i = chain.allEndpoints.length - 1 := by omega
      rw [fetchCosmos_last_error env chain a p l i (hall i le_rfl (by omega)) (by omega), hi]
  | succ k ih =>
      intro i hlen hall
      rw [fetchCosmos_retry_step env chain a p l i (hall i le_rfl (by omega)) (by omega)]
      exact ih (i + 1) (by omega) (fun j hij hj => hall j (by omega) hj)

/-- C2: for a fetcher with endpoint list `[A, B, C]` (two fallback
endpoints) where the attempts against A and B fail in any way and the
attempt against C succeeds, the call resolves with the envelope built from
C's data and no earlier error is surfaced; proved for the two fetchers that
maintain an endpoint list (EVM and Cosmos). -/
theorem third_endpoint_success_resolves :
    (∀ (env : Nat → EvmAttempt) (chain : ChainConfig) (a : String) (p l : Nat)
        (recs : List EtherscanRaw),
      chain.fallbackEndpoints.length = 2 →
      (env 0).fails = true → (env 1).fails = true → env 2 = EvmAttempt.ok recs →
      fetchEVMTransactions env chain a p l 0 =
        Except.ok { transactions := recs.map (fun tx => parseEtherscanTransaction tx chain),
                    totalCount := (recs.map (fun tx => parseEtherscanTransaction tx chain)).length,
                    page := p, limit := l,
                    hasMore := (recs.map (fun tx => parseEtherscanTransaction tx chain)).length == l }) ∧
    (∀ (env : Nat → CosmosAttempt) (chain : ChainConfig) (a : String) (p l : Nat)
        (recs : List CosmosRaw) (total : Option String),
      chain.fallbackEndpoints.length = 2 →
      (env 0).fails = true → (env 1).fails = true → env 2 = CosmosAttempt.ok recs total →
      fetchCosmosTransactions env chain a p l 0 =
        Except.ok { transactions := recs.map (fun tx => parseCosmosTransaction tx chain),
                    totalCount := strToNat (jsOr total "0"),
                    page := p, limit := l,
                    hasMore := (recs.map (fun tx => parseCosmosTransaction tx chain)).length == l }) := by
  constructor
  · intro env chain a p l recs h2 h0 h1 hok
    have hlen : chain.allEndpoints.length = 3 := by simp [ChainConfig.allEndpoints, h2]
    rw [fetchEVM_retry_step env chain a p l 0 h0 (by omega),
        fetchEVM_retry_step env chain a p l 1 h1 (by omega),
        fetchEVMTransactions.eq_def, hok]
  · intro env chain a p l recs total h2 h0 h1 hok
    have hlen : chain.allEndpoints.length = 3 := by simp [ChainConfig.allEndpoints, h2]
    rw [fetchCosmos_retry_step env chain a p l 0 h0 (by omega),
        fetchCosmos_retry_step env chain a p l 1 h1 (by omega),
        fetchCosmosTransactions.eq_def, hok]

/-- Witness for C2: a concrete three-endpoint chain whose first two
attempts fail (one transport error, one provider envelope) and whose third
returns an empty result array resolves successfully. -/
theorem third_endpoint_success_resolves_witness :
    fetchEVMTransactions
      (fun i => if i = 0 then EvmAttempt.transport "connection refused"
                else if i = 1 then EvmAttempt.badEnvelope "Max rate limit reached"
                else EvmAttempt.ok []) sampleChain3 "0xabc" 1 10 0 =
      Except.ok { transactions := [], totalCount := 0, page := 1, limit := 10, hasMore := false } := by
  have h := third_endpoint_success_resolves.1
    (fun i => if i = 0 then EvmAttempt.transport "connection refused"
              else if i = 1 then EvmAttempt.badEnvelope "Max rate limit reached"
              else EvmAttempt.ok []) sampleChain3 "0xabc" 1 10 [] rfl rfl rfl rfl
  simpa using h

/-- C3: when every endpoint attempt of a fetcher fails, the call rejects
with the error of the last endpoint attempted — for the endpoint-list
fetchers (EVM, Cosmos) the error of index `length - 1`; for Bitcoin, whose
two strategies are distinct hard-coded providers, the Blockstream error;
for the single-attempt fetchers, their only attempt's error.  No failure is
swallowed into a success. -/
theorem all_endpoints_fail_rejects_last_error :
    (∀ (env : Nat → EvmAttempt) (chain : ChainConfig) (a : String) (p l : Nat),
      (∀ j, j < chain.allEndpoints.length → (env j).fails = true) →
      fetchEVMTransactions env chain a p l 0 =
        .error ((env (chain.allEndpoints.length - 1)).errMsg)) ∧
    (∀ (env : Nat → CosmosAttempt) (chain : ChainConfig) (a : String) (p l : Nat),
      (∀ j, j < chain.allEndpoints.length → (env j).fails = true) →
      fetchCosmosTransactions env chain a p l 0 =
        .error ((env (chain.allEndpoints.length - 1)).errMsg)) ∧
    (∀ (env : BtcEnv) (chain : ChainConfig) (a : String) (p l : Nat),
      env.primaryFails = true → env.fallback.fails = true →
      fetchBitcoinTransactions env chain a p l false = .error env.fallback.errMsg) ∧
    (∀ (env : SubscanAttempt) (chain : ChainConfig) (a : String) (p l : Nat),
      env.fails = true → fetchSubstrateTransactions env chain a p l = .error env.errMsg) ∧
    (∀ (env : SolanaEnv) (chain : ChainConfig) (a : String) (p l : Nat),
      env.fails = true → fetchSolanaTransactions env chain a p l = .error env.errMsg) ∧
    (∀ (env : TronAttempt) (chain : ChainConfig) (a : String) (p l : Nat),
      env.fails = true → fetchTronTransactions env chain a p l = .error env.errMsg) ∧
    (∀ (env : NearAttempt) (chain : ChainConfig) (a : String) (p l : Nat),
      env.fails = true → fetchNearTransactions env chain a p l = .error env.errMsg) ∧
    (∀ (env : SuiAttempt) (chain : ChainConfig) (a : String) (p l : Nat),
      env.fails = true → fetchSuiTransactions env chain a p l = .error env.errMsg) ∧
    (∀ (env : AptosAttempt) (chain : ChainConfig) (a : String) (p l : Nat),
      env.fails = true → fetchAptosTransactions env chain a p l = .error env.errMsg) := by
  refine ⟨?_, ?_, ?_, substrate_fail_error, solana_fail_error, tron_fail_error,
    near_fail_error, sui_fail_error, aptos_fail_error⟩
  · intro env chain a p l hall
    have hlen : chain.allEndpoints.length = chain.fallbackEndpoints.length + 1 := by
      simp [ChainConfig.allEndpoints]
    exact fetchEVM_exhaust_aux env chain a p l (chain.allEndpoints.length - 1) 0
      (by omega) (fun j _ hj => hall j hj)
  · intro env chain a p l hall
    have hlen : chain.allEndpoints.length = chain.fallbackEndpoints.length + 1 := by
      simp [ChainConfig.allEndpoints]
    exact fetchCosmos_exhaust_aux env chain a p l (chain.allEndpoints.length - 1) 0
      (by omega) (fun j _ hj => hall j hj)
  · intro env chain a p l hp hf
    rw [btc_primary_fail_retry env chain a p l hp]
    exact btc_fallback_fail_error env chain a p l hf

/-- Witness for C3: a three-endpoint chain whose every attempt transport-
fails rejects with the third endpoint's message, and a failing Tron
attempt rejects with its own message. -/
theorem all_endpoints_fail_rejects_last_error_witness :
    fetchEVMTransactions
      (fun i => EvmAttempt.transport (String.append "endpoint down " (natToStr i)))
      sampleChain3 "0xabc" 1 10 0 = .error "endpoint down 2" ∧
    fetchTronTransactions (TronAttempt.transport "tron down") sampleChain "addr" 1 10 =
      .error "tron down" := by
  constructor
  · have h := all_endpoints_fail_rejects_last_error.1
      (fun i => EvmAttempt.transport (String.append "endpoint down " (natToStr i)))
      sampleChain3 "0xabc" 1 10 (fun j _ => rfl)
    simpa using h
  · exact all_endpoints_fail_rejects_last_error.2.2.2.2.2.1
      (TronAttempt.transport "tron down") sampleChain "addr" 1 10 rfl

/-- C4 counterexample: the Substrate fetcher does not implement the
fallback-endpoint retry protocol — for a chain that declares one fallback
endpoint, a transport failure of the primary attempt is propagated
immediately instead of being retried against the remaining endpoint. -/
theorem substrate_ignores_fallback_cex :
    sampleSubChain.fallbackEndpoints.length = 1 ∧
    fetchSubstrateTransactions (SubscanAttempt.transport "primary endpoint down")
      sampleSubChain "addr" 1 10 = .error "primary endpoint down" :=
  ⟨rfl, rfl⟩

/-- C4 amended: only the EVM and Cosmos fetchers implement the
fallback-endpoint retry protocol over `[primaryEndpoint,
...fallbackEndpoints]` (a failing attempt with an endpoint remaining equals
the retry on the next index); the Bitcoin fetcher falls back exactly once,
from Blockchain.info to the hard-coded Blockstream provider; the Substrate,
Solana, Tron, Near, Sui and Aptos fetchers make one attempt and propagate
its error even when the chain declares fallback endpoints. -/
theorem fallback_retry_protocol_by_fetcher :
    (∀ (env : Nat → EvmAttempt) (chain : ChainConfig) (a : String) (p l i : Nat),
      (env i).fails = true → i < chain.allEndpoints.length - 1 →
      fetchEVMTransactions env chain a p l i = fetchEVMTransactions env chain a p l (i + 1)) ∧
    (∀ (env : Nat → CosmosAttempt) (chain : ChainConfig) (a : String) (p l i : Nat),
      (env i).fails = true → i < chain.allEndpoints.length - 1 →
      fetchCosmosTransactions env chain a p l i = fetchCosmosTransactions env chain a p l (i + 1)) ∧
    (∀ (env : BtcEnv) (chain : ChainConfig) (a : String) (p l : Nat),
      env.primaryFails = true →
      fetchBitcoinTransactions env chain a p l false = fetchBitcoinTransactions env chain a p l true) ∧
    (∀ (env : SubscanAttempt) (chain : ChainConfig) (a : String) (p l : Nat),
      env.fails = true → fetchSubstrateTransactions env chain a p l = .error env.errMsg) ∧
    (∀ (env : SolanaEnv) (chain : ChainConfig) (a : String) (p l : Nat),
      env.fails = true → fetchSolanaTransactions env chain a p l = .error env.errMsg) ∧
    (∀ (env : TronAttempt) (chain : ChainConfig) (a : String) (p l : Nat),
      env.fails = true → fetchTronTransactions env chain a p l = .error env.errMsg) ∧
    (∀ (env : NearAttempt) (chain : ChainConfig) (a : String) (p l : Nat),
      env.fails = true → fetchNearTransactions env chain a p l = .error env.errMsg) ∧
    (∀ (env : SuiAttempt) (chain : ChainConfig) (a : String) (p l : Nat),
      env.fails = true → fetchSuiTransactions env chain a p l = .error env.errMsg) ∧
    (∀ (env : AptosAttempt) (chain : ChainConfig) (a : String) (p l : Nat),
      env.fails = true → fetchAptosTransactions env chain a p l = .error env.errMsg) :=
  ⟨fun env chain a p l i => fetchEVM_retry_step env chain a p l i,
   fun env chain a p l i => fetchCosmos_retry_step env chain a p l i,
   btc_primary_fail_retry, substrate_fail_error, solana_fail_error, tron_fail_error,
   near_fail_error, sui_fail_error, aptos_fail_error⟩

/-- Witness for C4: the EVM retry step at index 0 of the three-endpoint
sample chain, and the single-attempt Substrate propagation with a concrete
provider message. -/
theorem fallback_retry_protocol_by_fetcher_witness :
    fetchEVMTransactions
      (fun i => if i = 0 then EvmAttempt.transport "x" else EvmAttempt.ok [])
      sampleChain3 "a" 1 10 0 =
      fetchEVMTransactions
        (fun i => if i = 0 then EvmAttempt.transport "x" else EvmAttempt.ok [])
        sampleChain3 "a" 1 10 1 ∧
    fetchSubstrateTransactions (SubscanAttempt.badEnvelope "API rate limit exceeded")
      sampleSubChain "a" 1 10 = .error "API rate limit exceeded" := by
  constructor
  · exact fallback_retry_protocol_by_fetcher.1
      (fun i => if i = 0 then EvmAttempt.transport "x" else EvmAttempt.ok [])
      sampleChain3 "a" 1 10 0 rfl (by decide)
  · have h := fallback_retry_protocol_by_fetcher.2.2.2.1
      (SubscanAttempt.badEnvelope "API rate limit exceeded") sampleSubChain "a" 1 10 rfl
    simpa using h

/-- C5 counterexample: a raw record whose `input` is exactly the 10-character
selector `"0xa9059cbb"` (so it starts with the selector) and that has no
`contractAddress` is classified `transfer`, not `token`, because the guard
requires `input.length > 10`. -/
theorem selector_only_input_not_token :
    (("0xa9059cbb" : String).take 10 = "0xa9059cbb") ∧
    (parseEtherscanTransaction { input := some "0xa9059cbb" } sampleChain).type =
      TxType.transfer ∧
    TxType.transfer ≠ TxType.token := by
  exact ⟨by decide, by decide, by decide⟩

/-- C5 amended: a raw Etherscan-style record whose call data starts with the
selector `0xa9059cbb` is parsed with type `token` provided the record also
passes the contract guard — a truthy `contractAddress`, or call data longer
than the bare 10-character selector. -/
theorem token_selector_classified_token (tx : EtherscanRaw) (chain : ChainConfig)
    (hsel : strToLower ((jsOr tx.input (jsOr tx.data "")).take 10) = "0xa9059cbb")
    (hguard : jsTruthy tx.contractAddress ∨ 10 < (jsOr tx.input (jsOr tx.data "")).length) :
    (parseEtherscanTransaction tx chain).type = TxType.token := by
  have hne : jsOr tx.input (jsOr tx.data "") ≠ "" := by
    intro h
    rw [h] at hsel
    exact absurd hsel (by decide)
  have hne2 : jsOr tx.input (jsOr tx.data "") ≠ "0x" := by
    intro h
    rw [h] at hsel
    exact absurd hsel (by decide)
  have hcond : jsTruthy tx.contractAddress ∨
      (jsOr tx.input (jsOr tx.data "") ≠ "" ∧ jsOr tx.input (jsOr tx.data "") ≠ "0x" ∧
        10 < (jsOr tx.input (jsOr tx.data "")).length) := by
    rcases hguard with h | h
    · exact Or.inl h
    · exact Or.inr ⟨hne, hne2, h⟩
  simp only [parseEtherscanTransaction]
  rw [if_pos hcond, if_pos (Or.inl hsel)]

/-- Witness for C5 amended: a realistic ERC-20 `transfer` call record. -/
theorem token_selector_classified_token_witness :
    (parseEtherscanTransaction
      { input := some "0xa9059cbb000000000000000000000000aabbccdd" }
      sampleChain).type = TxType.token :=
  token_selector_classified_token _ _ (by decide) (Or.inr (by decide))

/-- C7: when the registry lookup does not resolve the chain id, the
dispatcher rejects with an error message naming that chain id; the result
is quantified over (hence independent of) the entire network environment,
so no fetcher is consulted and no network attempt is made. -/
theorem unknown_chain_rejects_named
    (getChainById : String → Option ChainConfig) (env : NetEnv)
    (address chainId : String) (page limit : Nat) (useMock : Bool)
    (h : getChainById chainId = none) :
    fetchTransactions getChainById env address chainId page limit useMock =
      .error (String.append (String.append "Chain " chainId) " not found") := by
  rw [fetchTransactions.eq_def, h]
  rfl

/-- Witness for C7: the sample registry at an unknown id, under the default
(everything-fails) network environment. -/
theorem unknown_chain_rejects_named_witness :
    fetchTransactions sampleRegistry {} "0xabc" "unknown-chain-id" 1 10 false =
      .error "Chain unknown-chain-id not found" := by
  have h := unknown_chain_rejects_named sampleRegistry {} "0xabc" "unknown-chain-id" 1 10 false rfl
  simpa using h

/-- C8: with the registry resolving the chain and `useMock = true`, the
dispatcher resolves (never touching any fetcher) with exactly `limit`
synthetic transactions and `hasMore` equal to the fixed page policy
`page < 4`; moreover the result depends only on the mock randomness/clock
component of the environment, so no network attempt can influence it. -/
theorem mock_mode_counts
    (g : String → Option ChainConfig) (env : NetEnv) (a cid : String) (p l : Nat)
    (chain : ChainConfig) (h : g cid = some chain) :
    fetchTransactions g env a cid p l true =
      Except.ok { transactions := generateMockTransactions env.mock a chain l,
                  totalCount := 100, page := p, limit := l, hasMore := decide (p < 4) } ∧
    (generateMockTransactions env.mock a chain l).length = l ∧
    (∀ env' : NetEnv, env'.mock = env.mock →
      fetchTransactions g env' a cid p l true = fetchTransactions g env a cid p l true) := by
  refine ⟨?_, ?_, ?_⟩
  · rw [fetchTransactions.eq_def, h]
    rfl
  · simp [generateMockTransactions]
  · intro env' hm
    simp only [fetchTransactions.eq_def, h, hm, if_true]

/-- Witness for C8: the sample registry, the default environment, page 1
and limit 25 yield exactly 25 mock transactions. -/
theorem mock_mode_counts_witness :
    (generateMockTransactions ({} : NetEnv).mock "0xabc" sampleChain 25).length = 25 :=
  (mock_mode_counts sampleRegistry {} "0xabc" "ethereum" 1 25 sampleChain rfl).2.1

/-- C9: every Transaction producer in the module — the four named parsers,
the seven inline fetcher mappers and the mock generator — emits
`valueFormatted = formatValue value decimals` and
`feeFormatted = formatValue fee decimals` for the chain of the call (the
producers that hard-code `value = "0"` also hard-code `valueFormatted =
"0"`, which is `formatValue "0" decimals`). -/
theorem formatted_fields_derived :
    (∀ (tx : EtherscanRaw) (chain : ChainConfig),
      (parseEtherscanTransaction tx chain).valueFormatted =
        formatValue (parseEtherscanTransaction tx chain).value chain.decimals ∧
      (parseEtherscanTransaction tx chain).feeFormatted =
        formatValue (parseEtherscanTransaction tx chain).fee chain.decimals) ∧
    (∀ (tx : SubscanRaw) (chain : ChainConfig),
      (parseSubscanTransaction tx chain).valueFormatted =
        formatValue (parseSubscanTransaction tx chain).value chain.decimals ∧
      (parseSubscanTransaction tx chain).feeFormatted =
        formatValue (parseSubscanTransaction tx chain).fee chain.decimals) ∧
    (∀ (tx : SolscanRaw) (chain : ChainConfig),
      (parseSolscanTransaction tx chain).valueFormatted =
        formatValue (parseSolscanTransaction tx chain).value chain.decimals ∧
      (parseSolscanTransaction tx chain).feeFormatted =
        formatValue (parseSolscanTransaction tx chain).fee chain.decimals) ∧
    (∀ (tx : CosmosRaw) (chain : ChainConfig),
      (parseCosmosTransaction tx chain).valueFormatted =
        formatValue (parseCosmosTransaction tx chain).value chain.decimals ∧
      (parseCosmosTransaction tx chain).feeFormatted =
        formatValue (parseCosmosTransaction tx chain).fee chain.decimals) ∧
    (∀ (a : String) (tx : HeliusRaw) (chain : ChainConfig),
      (heliusTransaction a tx chain).valueFormatted =
        formatValue (heliusTransaction a tx chain).value chain.decimals ∧
      (heliusTransaction a tx chain).feeFormatted =
        formatValue (heliusTransaction a tx chain).fee chain.decimals) ∧
    (∀ (a : String) (tx : BtcPrimaryRaw) (chain : ChainConfig),
      (btcPrimaryTransaction a tx chain).valueFormatted =
        formatValue (btcPrimaryTransaction a tx chain).value chain.decimals ∧
      (btcPrimaryTransaction a tx chain).feeFormatted =
        formatValue (btcPrimaryTransaction a tx chain).fee chain.decimals) ∧
    (∀ (now : Nat) (a : String) (tx : BtcFallbackRaw) (chain : ChainConfig),
      (btcFallbackTransaction now a tx chain).valueFormatted =
        formatValue (btcFallbackTransaction now a tx chain).value chain.decimals ∧
      (btcFallbackTransaction now a tx chain).feeFormatted =
        formatValue (btcFallbackTransaction now a tx chain).fee chain.decimals) ∧
    (∀ (tx : TronRaw) (chain : ChainConfig),
      (tronTransaction tx chain).valueFormatted =
        formatValue (tronTransaction tx chain).value chain.decimals ∧
      (tronTransaction tx chain).feeFormatted =
        formatValue (tronTransaction tx chain).fee chain.decimals) ∧
    (∀ (tx : NearRaw) (chain : ChainConfig),
      (nearTransaction tx chain).valueFormatted =
        formatValue (nearTransaction tx chain).value chain.decimals ∧
      (nearTransaction tx chain).feeFormatted =
        formatValue (nearTransaction tx chain).fee chain.decimals) ∧
    (∀ (a : String) (tx : SuiRaw) (chain : ChainConfig),
      (suiTransaction a tx chain).valueFormatted =
        formatValue (suiTransaction a tx chain).value chain.decimals ∧
      (suiTransaction a tx chain).feeFormatted =
        formatValue (suiTransaction a tx chain).fee chain.decimals) ∧
    (∀ (tx : AptosRaw) (chain : ChainConfig),
      (aptosTransaction tx chain).valueFormatted =
        formatValue (aptosTransaction tx chain).value chain.decimals ∧
      (aptosTransaction tx chain).feeFormatted =
        formatValue (aptosTransaction tx chain).fee chain.decimals) ∧
    (∀ (env : MockEnv) (a : String) (chain : ChainConfig) (i : Nat),
      (mockTransaction env a chain i).valueFormatted =
        formatValue (mockTransaction env a chain i).value chain.decimals ∧
      (mockTransaction env a chain i).feeFormatted =
        formatValue (mockTransaction env a chain i).fee chain.decimals) :=
  ⟨fun tx chain => ⟨rfl, rfl⟩,
   fun tx chain => ⟨rfl, rfl⟩,
   fun tx chain => ⟨rfl, rfl⟩,
   fun tx chain => ⟨rfl, rfl⟩,
   fun a tx chain => ⟨(formatValue_zero chain.decimals).symm, rfl⟩,
   fun a tx chain => ⟨rfl, rfl⟩,
   fun now a tx chain => ⟨rfl, rfl⟩,
   fun tx chain => ⟨rfl, rfl⟩,
   fun tx chain => ⟨rfl, rfl⟩,
   fun a tx chain => ⟨(formatValue_zero chain.decimals).symm, rfl⟩,
   fun tx chain => ⟨(formatValue_zero chain.decimals).symm, rfl⟩,
   fun env a chain i => ⟨rfl, rfl⟩⟩

/-- Helper: any successful EVM fetch echoes `page` and `limit`. -/
theorem fetchEVM_page_limit (env : Nat → EvmAttempt) (chain : ChainConfig) (a : String)
    (p l : Nat) :
    ∀ k i r, chain.allEndpoints.length - i ≤ k →
      fetchEVMTransactions env chain a p l i = Except.ok r → r.page = p ∧ r.limit = l := by
  intro k
  induction k with
  | zero =>
      intro i r hk h
      cases he : env i with
      | ok res =>
          rw [fetchEVMTransactions.eq_def, he] at h
          have h2 := Except.ok.inj h
          subst h2
          exact ⟨rfl, rfl⟩
      | transport m =>
          rw [fetchEVM_last_error env chain a p l i (by rw [he]; rfl) (by omega)] at h
          simp at h
      | badEnvelope m =>
          rw [fetchEVM_last_error env chain a p l i (by rw [he]; rfl) (by omega)] at h
          simp at h
  | succ k ih =>
      intro i r hk h
      cases he : env i with
      | ok res =>
          rw [fetchEVMTransactions.eq_def, he] at h
          have h2 := Except.ok.inj h
          subst h2
          exact ⟨rfl, rfl⟩
      | transport m =>
          by_cases hlt : i < chain.allEndpoints.length - 1
          · rw [fetchEVM_retry_step env chain a p l i (by rw [he]; rfl) hlt] at h
            exact ih (i + 1) r (by omega) h
          · rw [fetchEVM_last_error env chain a p l i (by rw [he]; rfl) hlt] at h
            simp at h
      | badEnvelope m =>
          by_cases hlt : i < chain.allEndpoints.length - 1
          · rw [fetchEVM_retry_step env chain a p l i (by rw [he]; rfl) hlt] at h
            exact ih (i + 1) r (by omega) h
          · rw [fetchEVM_last_error env chain a p l i (by rw [he]; rfl) hlt] at h
            simp at h

/-- Helper: any successful Cosmos fetch echoes `page` and `limit`. -/
theorem fetchCosmos_page_limit (env : Nat → CosmosAttempt) (chain : ChainConfig) (a : String)
    (p l : Nat) :
    ∀ k i r, chain.allEndpoints.length - i ≤ k →
      fetchCosmosTransactions env chain a p l i = Except.ok r → r.page = p ∧ r.limit = l := by
  intro k
  induction k with
  | zero =>
      intro i r hk h
      cases he : env i with
      | ok res t =>
          rw [fetchCosmosTransactions.eq_def, he] at h
          have h2 := Except.ok.inj h
          subst h2
          exact ⟨rfl, rfl⟩
      | transport m =>
          rw [fetchCosmos_last_error env chain a p l i (by rw [he]; rfl) (by omega)] at h
          simp at h
      | badShape =>
          rw [fetchCosmos_last_error env chain a p l i (by rw [he]; rfl) (by omega)] at h
          simp at h
  | succ k ih =>
      intro i r hk h
      cases he : env i with
      | ok res t =>
          rw [fetchCosmosTransactions.eq_def, he] at h
          have h2 := Except.ok.inj h
          subst h2
          exact ⟨rfl, rfl⟩
      | transport m =>
          by_cases hlt : i < chain.allEndpoints.length - 1
          · rw [fetchCosmos_retry_step env chain a p l i (by rw [he]; rfl) hlt] at h
            exact ih (i + 1) r (by omega) h
          · rw [fetchCosmos_last_error env chain a p l i (by rw [he]; rfl) hlt] at h
            simp at h
      | badShape =>
          by_cases hlt : i < chain.allEndpoints.length - 1
          · rw [fetchCosmos_retry_step env chain a p l i (by rw [he]; rfl) hlt] at h
            exact ih (i + 1) r (by omega) h
          · rw [fetchCosmos_last_error env chain a p l i (by rw [he]; rfl) hlt] at h
            simp at h

/-- Helper: any successful Bitcoin fetch (either strategy) echoes `page`
and `limit`. -/
theorem fetchBitcoin_page_limit (env : BtcEnv) (chain : ChainConfig) (a : String)
    (p l : Nat) :
    ∀ b r, fetchBitcoinTransactions env chain a p l b = Except.ok r →
      r.page = p ∧ r.limit = l := by
  have htrue : ∀ r, fetchBitcoinTransactions env chain a p l true = Except.ok r →
      r.page = p ∧ r.limit = l := by
    intro r h
    rw [fetchBitcoinTransactions.eq_def] at h
    cases hf : env.fallback with
    | ok d =>
        rw [hf] at h
        have h2 := Except.ok.inj h
        subst h2
        exact ⟨rfl, rfl⟩
    | notArray => rw [hf] at h; simp at h
    | transport m => rw [hf] at h; simp at h
  intro b r h
  cases b with
  | true => exact htrue r h
  | false =>
      rw [fetchBitcoinTransactions.eq_def] at h
      cases hp : env.primary with
      | ok t n =>
          rw [hp] at h
          have h2 := Except.ok.inj h
          subst h2
          exact ⟨rfl, rfl⟩
      | notArray =>
          rw [hp] at h
          exact htrue r h
      | transport m =>
          rw [hp] at h
          exact htrue r h

/-- Helper: any successful Substrate fetch echoes `page` and `limit`. -/
theorem fetchSubstrate_page_limit (env : SubscanAttempt) (chain : ChainConfig) (a : String)
    (p l : Nat) (r : TransactionResponse)
    (h : fetchSubstrateTransactions env chain a p l = Except.ok r) :
    r.page = p ∧ r.limit = l := by
  cases env with
  | transport m => simp [fetchSubstrateTransactions] at h
  | badEnvelope m => simp [fetchSubstrateTransactions] at h
  | ok e c =>
      have h2 := Except.ok.inj h
      subst h2
      exact ⟨rfl, rfl⟩

/-- Helper: any successful Solana fetch (either provider branch) echoes
`page` and `limit`. -/
theorem fetchSolana_page_limit (env : SolanaEnv) (chain : ChainConfig) (a : String)
    (p l : Nat) (r : TransactionResponse)
    (h : fetchSolanaTransactions env chain a p l = Except.ok r) :
    r.page = p ∧ r.limit = l := by
  by_cases hk : env.heliusKey.getD "" ≠ ""
  · rw [fetchSolanaTransactions.eq_def, if_pos hk] at h
    cases hh : env.helius with
    | ok d =>
        rw [hh] at h
        have h2 := Except.ok.inj h
        subst h2
        exact ⟨rfl, rfl⟩
    | notArray => rw [hh] at h; simp at h
    | transport m => rw [hh] at h; simp at h
  · rw [fetchSolanaTransactions.eq_def, if_neg hk] at h
    cases hh : env.solscan with
    | ok d t =>
        rw [hh] at h
        have h2 := Except.ok.inj h
        subst h2
        exact ⟨rfl, rfl⟩
    | notArray => rw [hh] at h; simp at h
    | transport m => rw [hh] at h; simp at h

/-- Helper: any successful Tron fetch echoes `page` and `limit`. -/
theorem fetchTron_page_limit (env : TronAttempt) (chain : ChainConfig) (a : String)
    (p l : Nat) (r : TransactionResponse)
    (h : fetchTronTransactions env chain a p l = Except.ok r) :
    r.page = p ∧ r.limit = l := by
  cases env with
  | transport m => simp [fetchTronTransactions] at h
  | notArray => simp [fetchTronTransactions] at h
  | ok d t =>
      have h2 := Except.ok.inj h
      subst h2
      exact ⟨rfl, rfl⟩

/-- Helper: any successful Near fetch echoes `page` and `limit`. -/
theorem fetchNear_page_limit (env : NearAttempt) (chain : ChainConfig) (a : String)
    (p l : Nat) (r : TransactionResponse)
    (h : fetchNearTransactions env chain a p l = Except.ok r) :
    r.page = p ∧ r.limit = l := by
  cases env with
  | transport m => simp [fetchNearTransactions] at h
  | notArray => simp [fetchNearTransactions] at h
  | ok d t =>
      have h2 := Except.ok.inj h
      subst h2
      exact ⟨rfl, rfl⟩

/-- Helper: any successful Sui fetch echoes `page` and `limit`. -/
theorem fetchSui_page_limit (env : SuiAttempt) (chain : ChainConfig) (a : String)
    (p l : Nat) (r : TransactionResponse)
    (h : fetchSuiTransactions env chain a p l = Except.ok r) :
    r.page = p ∧ r.limit = l := by
  cases env with
  | transport m => simp [fetchSuiTransactions] at h
  | noData => simp [fetchSuiTransactions] at h
  | ok d =>
      have h2 := Except.ok.inj h
      subst h2
      exact ⟨rfl, rfl⟩

/-- Helper: any successful Aptos fetch echoes `page` and `limit`. -/
theorem fetchAptos_page_limit (env : AptosAttempt) (chain : ChainConfig) (a : String)
    (p l : Nat) (r : TransactionResponse)
    (h : fetchAptosTransactions env chain a p l = Except.ok r) :
    r.page = p ∧ r.limit = l := by
  cases env with
  | transport m => simp [fetchAptosTransactions] at h
  | notArray => simp [fetchAptosTransactions] at h
  | ok d =>
      have h2 := Except.ok.inj h
      subst h2
      exact ⟨rfl, rfl⟩

/-- C10: every envelope the dispatcher resolves — through any fetcher
branch or the mock branch, whichever endpoint or strategy succeeded —
echoes the call's `page` and `limit` arguments unchanged. -/
theorem response_echoes_page_limit
    (g : String → Option ChainConfig) (env : NetEnv) (a cid : String) (p l : Nat)
    (m : Bool) (r : TransactionResponse)
    (h : fetchTransactions g env a cid p l m = Except.ok r) :
    r.page = p ∧ r.limit = l := by
  rw [fetchTransactions.eq_def] at h
  split at h
  · exact absurd h (by simp)
  · rename_i chain hchain
    cases m with
    | true =>
        have h2 := Except.ok.inj h
        subst h2
        exact ⟨rfl, rfl⟩
    | false =>
        rw [if_neg (by simp : ¬ (false = true))] at h
        by_cases h1 : chain.id = "bitcoin"
        · rw [if_pos h1] at h
          exact fetchBitcoin_page_limit env.btc chain a p l false r h
        rw [if_neg h1] at h
        by_cases h2 : chain.id = "tron"
        · rw [if_pos h2] at h
          exact fetchTron_page_limit env.tron chain a p l r h
        rw [if_neg h2] at h
        by_cases h3 : chain.id = "near"
        · rw [if_pos h3] at h
          exact fetchNear_page_limit env.near chain a p l r h
        rw [if_neg h3] at h
        by_cases h4 : chain.id = "sui"
        · rw [if_pos h4] at h
          exact fetchSui_page_limit env.sui chain a p l r h
        rw [if_neg h4] at h
        by_cases h5 : chain.id = "aptos"
        · rw [if_pos h5] at h
          exact fetchAptos_page_limit env.aptos chain a p l r h
        rw [if_neg h5] at h
        split at h
        · exact fetchEVM_page_limit env.evm chain a p l chain.allEndpoints.length 0 r
            (by omega) h
        · exact fetchSubstrate_page_limit env.subscan chain a p l r h
        · exact fetchSolana_page_limit env.solana chain a p l r h
        · exact fetchCosmos_page_limit env.cosmos chain a p l chain.allEndpoints.length 0 r
            (by omega) h
        · exact absurd h (by simp)

/-- Witness for C10: the mock branch at page 7 and limit 0 produces an
envelope whose `page` and `limit` are those arguments. -/
theorem response_echoes_page_limit_witness :
    ({ transactions := [], totalCount := 100, page := 7, limit := 0, hasMore := false } :
      TransactionResponse).page = 7 ∧
    ({ transactions := [], totalCount := 100, page := 7, limit := 0, hasMore := false } :
      TransactionResponse).limit = 0 :=
  response_echoes_page_limit sampleRegistry {} "0xabc" "ethereum" 7 0 true
    { transactions := [], totalCount := 100, page := 7, limit := 0, hasMore := false } rfl
